import Mathlib

/-!
Shallow embedding of the potions REST service (Express + Mongoose).

The repository's routers are embedded as pure Lean functions over an
explicit catalog state (`List Potion`) and user store (`List User`).
Numbers are modelled as exact rationals (`ℚ`); the external document
store's query and aggregation primitives (`find`, `findById`, `$group`,
`$avg`, `$sum`, `$cond`, `$divide`) are modelled by their documented
MongoDB/Mongoose semantics.  Fallible store calls return `Except` or are
parameterised by an explicit outcome value.
-/

namespace PotionApi

/-- Ratings subdocument of a potion: numeric strength and flavor. -/
structure Ratings where
  strength : ℚ
  flavor : ℚ
deriving DecidableEq, Repr

/-- A potion document, per the swagger schema in the source: `_id` (store
assigned identifier), name, price, score, ingredients, ratings, tryDate
(kept as its string form), categories, vendor_id. -/
structure Potion where
  id : String
  name : String
  price : ℚ
  score : ℚ
  ingredients : List String
  ratings : Ratings
  tryDate : String
  categories : List String
  vendor_id : String
deriving DecidableEq, Repr

/-- A BSON-like value as produced by field-path access on a potion
document.  The only array-valued fields of the modelled schema are string
arrays, so arrays carry strings.  A missing field path resolves to
`null`, per MongoDB semantics. -/
inductive MongoValue where
  | null : MongoValue
  | str : String → MongoValue
  | num : ℚ → MongoValue
  | strArr : List String → MongoValue
deriving DecidableEq, Repr

/-- Field-path access `$<path>` on a potion document, per MongoDB
semantics: known paths resolve to the field's value, any other path
(including a nonexistent field) resolves to null.  Dotted paths reach the
ratings subdocument. -/
def getField (p : Potion) (path : String) : MongoValue :=
  if path = "_id" then .str p.id
  else if path = "name" then .str p.name
  else if path = "price" then .num p.price
  else if path = "score" then .num p.score
  else if path = "ingredients" then .strArr p.ingredients
  else if path = "ratings.strength" then .num p.ratings.strength
  else if path = "ratings.flavor" then .num p.ratings.flavor
  else if path = "tryDate" then .str p.tryDate
  else if path = "categories" then .strArr p.categories
  else if path = "vendor_id" then .str p.vendor_id
  else .null

/-! ## GET /analytics/strength-flavor-ratio -/

/-- One row of the strength-flavor-ratio projection: `$project` keeps
`_id` by default, includes `name`, and computes `strengthFlavorRatio`;
`none` models the JSON null produced by the `$cond` branch. -/
structure RatioEntry where
  id : String
  name : String
  ratioValue : Option ℚ
deriving DecidableEq, Repr

/-- Embedding of the `/strength-flavor-ratio` aggregation: per document,
`$cond [$eq [ratings.flavor, 0], null, $divide [ratings.strength,
ratings.flavor]]`.  The `$divide` is only evaluated when flavor is
nonzero, so no division error can arise. -/
def strengthFlavorRatioAgg (docs : List Potion) : List RatioEntry :=
  docs.map fun p =>
    ⟨p.id, p.name,
      if p.ratings.flavor = 0 then none
      else some (p.ratings.strength / p.ratings.flavor)⟩

/-! ## GET /potions/price-range -/

/-- A JavaScript number as produced by `parseFloat`: a finite value
(modelled exactly as a rational) or one of the two infinities. -/
inductive JsNum where
  | fin : ℚ → JsNum
  | posInf : JsNum
  | negInf : JsNum
deriving DecidableEq, Repr

/-- Comparison on JavaScript numbers (total on the modelled values;
NaN never reaches a comparison in the embedded handler because the
source guards every bound with `isNaN`). -/
def JsNum.le : JsNum → JsNum → Bool
  | .negInf, _ => true
  | _, .posInf => true
  | .fin a, .fin b => a ≤ b
  | .posInf, .fin _ => false
  | .posInf, .negInf => false
  | .fin _, .negInf => false

/-- Numeric value of a list of decimal digit characters. -/
def digitsToNat (ds : List Char) : Nat :=
  ds.foldl (fun a c => a * 10 + (c.toNat - 48)) 0

/-- Rational power of ten by explicit recursion (kept kernel-reducible
for concrete evaluation). -/
def qpow10 : Nat → ℚ
  | 0 => 1
  | n + 1 => qpow10 n * 10

/-- Embedding of JavaScript `parseFloat`: skip leading whitespace, an
optional sign, then either the `Infinity` literal or a decimal mantissa
(digits, optional fraction) with an optional exponent; trailing garbage
is ignored.  `none` models NaN (no parsable numeric prefix).  Finite
values are represented exactly as rationals; double rounding is outside
the model. -/
def parseFloatJs (s : String) : Option JsNum :=
  let cs0 := s.data.dropWhile Char.isWhitespace
  let signNeg : Bool :=
    match cs0 with
    | '-' :: _ => true
    | _ => false
  let cs :=
    match cs0 with
    | '-' :: t => t
    | '+' :: t => t
    | _ => cs0
  if ("Infinity".data).isPrefixOf cs then
    some (if signNeg then .negInf else .posInf)
  else
    let ip := cs.takeWhile Char.isDigit
    let rest := cs.dropWhile Char.isDigit
    let fp :=
      match rest with
      | '.' :: t => t.takeWhile Char.isDigit
      | _ => []
    let rest2 :=
      match rest with
      | '.' :: t => t.dropWhile Char.isDigit
      | _ => rest
    if ip.isEmpty && fp.isEmpty then none
    else
      let mant : ℚ :=
        (digitsToNat ip : ℚ) + (digitsToNat fp : ℚ) / qpow10 fp.length
      let ex : ℤ :=
        match rest2 with
        | 'e' :: t =>
          let t2 := match t with | '-' :: u => u | '+' :: u => u | _ => t
          let ed := t2.takeWhile Char.isDigit
          if ed.isEmpty then 0
          else match t with
            | '-' :: _ => -(digitsToNat ed : ℤ)
            | _ => (digitsToNat ed : ℤ)
        | 'E' :: t =>
          let t2 := match t with | '-' :: u => u | '+' :: u => u | _ => t
          let ed := t2.takeWhile Char.isDigit
          if ed.isEmpty then 0
          else match t with
            | '-' :: _ => -(digitsToNat ed : ℤ)
            | _ => (digitsToNat ed : ℤ)
        | _ => 0
      let v : ℚ := if 0 ≤ ex then mant * qpow10 ex.toNat else mant / qpow10 (-ex).toNat
      some (.fin (if signNeg then -v else v))

/-- Embedding of the `/price-range` handler: each query-string bound is
run through `parseFloat`; a bound whose parse is NaN (including an absent
parameter, since `parseFloat(undefined)` is NaN) contributes no
constraint; the store is then queried with the conjunction of the
remaining `$gte`/`$lte` constraints on `price` (an empty filter returns
every document). -/
def priceRangeHandler (docs : List Potion) (minS maxS : Option String) :
    List Potion :=
  let mi := minS.bind parseFloatJs
  let ma := maxS.bind parseFloatJs
  docs.filter fun p =>
    (match mi with
     | some m => JsNum.le m (.fin p.price)
     | none => true)
    &&
    (match ma with
     | some m => JsNum.le (.fin p.price) m
     | none => true)

/-! ## GET /analytics/search -/

/-- Result of the JavaScript property read `allowedMetrics[metric]`:
an own property (with its string value), a property inherited from
`Object.prototype` (a truthy function or object), or `undefined`. -/
inductive JsLookup where
  | found : String → JsLookup
  | proto : JsLookup
  | absent : JsLookup
deriving DecidableEq, Repr

/-- String-keyed members of `Object.prototype` in Node.js; reading any of
these names on a plain object literal yields a truthy inherited value. -/
def objectProtoKeys : List String :=
  ["constructor", "hasOwnProperty", "isPrototypeOf", "propertyIsEnumerable",
   "toLocaleString", "toString", "valueOf", "__proto__",
   "__defineGetter__", "__defineSetter__", "__lookupGetter__",
   "__lookupSetter__"]

/-- Embedding of `allowedMetrics[metric]` where `allowedMetrics` is the
plain object literal `\x7b avg: '$avg', sum: '$sum', count: '$count' \x7d`:
JavaScript property lookup falls back to the prototype chain, so the
`Object.prototype` member names also resolve (to truthy values).  An
absent `metric` query parameter reads the key `"undefined"`, which is
`undefined`. -/
def allowedMetricsLookup : Option String → JsLookup
  | some ("avg") => .found ("$avg")
  | some ("sum") => .found ("$sum")
  | some ("count") => .found ("$count")
  | some s => if s ∈ objectProtoKeys then .proto else .absent
  | none => .absent

/-- JavaScript truthiness of an optional query-string value: `undefined`
and the empty string are falsy. -/
def truthyStr : Option String → Bool
  | none => false
  | some s => !s.isEmpty

/-- Truthiness of the value read from `allowedMetrics`: own values are
nonempty strings, inherited prototype members are functions or objects
(truthy), `undefined` is falsy. -/
def JsLookup.truthy : JsLookup → Bool
  | .found _ => true
  | .proto => true
  | .absent => false

/-- Distinct `$<groupBy>` key values over the catalog, as produced by a
`$group` stage (one output document per distinct key). -/
def groupKeys (docs : List Potion) (gb : String) : List MongoValue :=
  (docs.map fun d => getField d gb).dedup

/-- Embedding of `$group` with `count: \x7b $sum: 1 \x7d`: one entry per
distinct key, counting the documents grouped under it. -/
def groupCount (docs : List Potion) (gb : String) :
    List (MongoValue × Nat) :=
  (groupKeys docs gb).map fun k =>
    (k, docs.countP fun d => decide (getField d gb = k))

/-- Numeric projection of a field path over a group, per `$avg`/`$sum`
semantics: non-numeric and missing values are ignored. -/
def numValues (docs : List Potion) (field : String) : List ℚ :=
  docs.filterMap fun d =>
    match getField d field with
    | .num q => some q
    | _ => none

/-- Embedding of `$group` with `result: \x7b $avg|$sum : $<field> \x7d`:
`$sum` of an empty group is 0; `$avg` of a group with no numeric values
is null (`none`). -/
def groupAgg (op : String) (docs : List Potion) (gb field : String) :
    List (MongoValue × Option ℚ) :=
  (groupKeys docs gb).map fun k =>
    let grp := docs.filter fun d => decide (getField d gb = k)
    let vals := numValues grp field
    (k, if op = "$avg" then
          (if vals.isEmpty then none
           else some (vals.sum / (vals.length : ℚ)))
        else some vals.sum)

/-- Response of the `/search` endpoint. -/
inductive SearchResp where
  | badRequest : SearchResp
  | countResult : List (MongoValue × Nat) → SearchResp
  | aggResult : List (MongoValue × Option ℚ) → SearchResp
  | serverError : String → SearchResp
deriving DecidableEq, Repr

/-- HTTP status of a `/search` response; `badRequest` carries the body
`\x7b error: 'Parametres invalides' \x7d`. -/
def SearchResp.status : SearchResp → Nat
  | .badRequest => 400
  | .countResult _ => 200
  | .aggResult _ => 200
  | .serverError _ => 500

/-- Embedding of the `/search` handler: read `groupBy`, `metric`, `field`
from the query string; reject with 400 when `allowedMetrics[metric]` is
falsy, `groupBy` is falsy, or `field` is falsy while `metric` is not the
string `count`; otherwise run the dynamic `$group`.  When the metric
resolved through the prototype chain, the group stage's accumulator key
is the stringified inherited function, which the store rejects as an
unknown group operator — the aggregation call fails and the catch
answers 500. -/
def searchHandler (docs : List Potion)
    (groupBy metric field : Option String) : SearchResp :=
  let mongoMetric := allowedMetricsLookup metric
  if !mongoMetric.truthy || !truthyStr groupBy
      || (!truthyStr field && metric ≠ some ("count")) then
    .badRequest
  else if metric = some ("count") then
    .countResult (groupCount docs (groupBy.getD ("")))
  else
    match mongoMetric with
    | .found op => .aggResult (groupAgg op docs (groupBy.getD ("")) (field.getD ("")))
    | _ => .serverError ("unknown group operator")

/-! ## Mongoose identifier casting and GET /potions/:id -/

/-- Hexadecimal digit predicate (both cases), for ObjectId validation. -/
def isHexChar (c : Char) : Bool :=
  c.isDigit || ('a' ≤ c && c ≤ 'f') || ('A' ≤ c && c ≤ 'F')

/-- Mongoose ObjectId cast acceptance: a 24-character hexadecimal string,
or any 12-character string (taken as 12 raw bytes).  Any other string
makes `findById` and friends reject with a CastError before the query
reaches the store. -/
def isValidObjectId (s : String) : Bool :=
  s.length = 12 || (s.length = 24 && s.data.all isHexChar)

/-- Embedding of `Potion.findById`: a malformed identifier raises a
CastError (modelled as `Except.error`); a well-formed one resolves to
the document whose `_id` equals it, if any. -/
def findByIdStore (docs : List Potion) (id : String) :
    Except String (Option Potion) :=
  if isValidObjectId id then .ok (docs.find? fun p => p.id = id)
  else .error ("CastError")

/-- Response of `GET /potions/:id`. -/
inductive GetByIdResp where
  | ok : Potion → GetByIdResp
  | notFound : GetByIdResp
  | serverError : String → GetByIdResp
deriving DecidableEq, Repr

/-- HTTP status of a `GET /potions/:id` response; `notFound` carries
`\x7b error: 'Potion non trouvee' \x7d`, `serverError` the caught error
message. -/
def GetByIdResp.status : GetByIdResp → Nat
  | .ok _ => 200
  | .notFound => 404
  | .serverError _ => 500

/-- Embedding of the `GET /potions/:id` handler: `findById`, 404 when the
result is null, 200 with the document otherwise; any thrown error (in
particular the CastError on a malformed id) lands in the catch and is
answered with 500. -/
def getByIdHandler (docs : List Potion) (id : String) : GetByIdResp :=
  match findByIdStore docs id with
  | .error msg => .serverError msg
  | .ok none => .notFound
  | .ok (some p) => .ok p

/-! ## Users and password verification -/

/-- Modelled from the spec: `user.model.js` is absent from `src/`; per
the spec a User stores its name and a one-way, salted derived hash of the
password, never the clear password. -/
structure User where
  uid : String
  name : String
  passwordHash : String
deriving DecidableEq, Repr

/-- Modelled from the spec: the one-way password derivation applied
before storage (`user.model.js` is absent from `src/`).  The derivation
is kept abstract as an injective tagging; its only property used below is
determinism. -/
def derive (pw : String) : String :=
  "hash:" ++ pw

/-- Modelled from the spec: `user.comparePassword(candidate)` checks the
candidate password against the stored derived hash. -/
def comparePassword (u : User) (pw : String) : Bool :=
  derive pw == u.passwordHash

/-- Exact-name user lookup, embedding `User.findOne(\x7b name \x7d)`. -/
def findUser (users : List User) (name : String) : Option User :=
  users.find? fun u => u.name = name

/-! ## Session tokens and the auth guard -/

/-- A signed session token carrying the user's identifier and name, an
expiry instant, and a signature (the JWT issued by the login handler,
abstracted). -/
structure SessionToken where
  uid : String
  name : String
  exp : Nat
  sig : Nat
deriving DecidableEq, Repr

/-- Deterministic string mixing used to model the token signature. -/
def strHash (s : String) : Nat :=
  s.data.foldl (fun a c => a * 131 + c.toNat + 1) 7

/-- Signature over the token payload under a signing secret, modelling
the HMAC of `jwt.sign`. -/
def tokHash (secret uid name : String) (exp : Nat) : Nat :=
  strHash (secret ++ "|" ++ uid ++ "|" ++ name ++ "|" ++ toString exp)

/-- Embedding of `jwt.sign(\x7b id, name \x7d, secret)` with expiry. -/
def signTok (secret uid name : String) (exp : Nat) : SessionToken :=
  ⟨uid, name, exp, tokHash secret uid name exp⟩

/-- Verification of a session token: the signature must match the
payload under the secret and the token must not be expired. -/
def verifyTok (secret : String) (now : Nat) (t : SessionToken) : Bool :=
  (t.sig == tokHash secret t.uid t.name t.exp) && now < t.exp

/-- Modelled from the spec: `middleware.js` is absent from `src/`; per
the spec the guard extracts the session cookie, verifies its signature
and expiry, and on any failure (missing, malformed, expired, bad
signature) rejects with Unauthorized before the handler body runs; on
success it exposes the verified identity. -/
def authenticate (secret : String) (now : Nat)
    (cookie : Option SessionToken) : Option (String × String) :=
  match cookie with
  | none => none
  | some t => if verifyTok secret now t then some (t.uid, t.name) else none

/-! ## POST /auth/login -/

/-- Response of `POST /auth/login`: the generic invalid-credentials
rejection, or success setting the session cookie. -/
inductive LoginResp where
  | invalidCreds : LoginResp
  | success : SessionToken → LoginResp
deriving DecidableEq, Repr

/-- HTTP status of a login response. -/
def LoginResp.status : LoginResp → Nat
  | .invalidCreds => 401
  | .success _ => 200

/-- JSON body of a login response, as in the source. -/
def LoginResp.body : LoginResp → String
  | .invalidCreds => "Identifiants invalides"
  | .success _ => "Connecté avec succès"

/-- Embedding of the login handler: look the user up by exact name; if
absent, or if `comparePassword` rejects, answer the single generic 401;
otherwise sign a 24-hour token and set it as the cookie. -/
def loginHandler (secret : String) (now : Nat) (users : List User)
    (name pw : String) : LoginResp :=
  match findUser users name with
  | none => .invalidCreds
  | some u =>
    if comparePassword u pw then
      .success (signTok secret u.uid u.name (now + 24 * 60 * 60 * 1000))
    else .invalidCreds

/-! ## POST /auth/register -/

/-- Embedding of the validator.js `escape` sanitizer: HTML-escape the
characters `&`, double quote, single quote, `<`, `>`, `/`, backslash and
backtick (the last matched by code point 96). -/
def escapeChar (c : Char) : String :=
  if c = '&' then ("&amp;")
  else if c = '"' then ("&quot;")
  else if c = '\'' then ("&#x27;")
  else if c = '<' then ("&lt;")
  else if c = '>' then ("&gt;")
  else if c = '/' then ("&#x2F;")
  else if c = '\\' then ("&#x5C;")
  else if c.toNat = 96 then ("&#96;")
  else String.singleton c

/-- HTML-escaping of a whole string, character by character. -/
def escapeHtml (s : String) : String :=
  s.data.foldl (fun acc c => acc ++ escapeChar c) ""

/-- Embedding of JavaScript `String.prototype.trim`: strip whitespace
from both ends (written over the character list so that it evaluates by
kernel reduction). -/
def jsTrim (s : String) : String :=
  String.mk
    (((s.data.dropWhile Char.isWhitespace).reverse.dropWhile
        Char.isWhitespace).reverse)

/-- The sanitization chain `trim().escape()` applied to a field before
its validators run. -/
def sanitizeField (s : String) : String :=
  escapeHtml (jsTrim s)

/-- One express-validator field error: the offending parameter and the
message attached with `withMessage`. -/
structure FieldError where
  param : String
  msg : String
deriving DecidableEq, Repr

/-- Validation chain for `name`: after `trim().escape()`, `notEmpty` and
`isLength(\x7b min: 3, max: 30 \x7d)` each contribute one error when they
fail (express-validator does not bail by default). -/
def nameChecks (raw : String) : List FieldError :=
  (if (sanitizeField raw).length = 0 then
     [⟨"name", "Le nom d’utilisateur est requis."⟩]
   else []) ++
  (if 3 ≤ (sanitizeField raw).length ∧ (sanitizeField raw).length ≤ 30 then []
   else [⟨"name", "Doit faire entre 3 et 30 caractères."⟩])

/-- Validation chain for `password`: after `trim().escape()`, `notEmpty`
and `isLength(\x7b min: 6 \x7d)`. -/
def passwordChecks (raw : String) : List FieldError :=
  (if (sanitizeField raw).length = 0 then
     [⟨"password", "Le mot de passe est requis."⟩]
   else []) ++
  (if 6 ≤ (sanitizeField raw).length then []
   else [⟨"password", "Minimum 6 caractères."⟩])

/-- The ordered error list of `validationResult(req)` for the register
route: the `name` chain's errors, then the `password` chain's. -/
def validateRegister (name pw : String) : List FieldError :=
  nameChecks name ++ passwordChecks pw

/-- Outcome of `user.save()` as seen by the register handler: success, a
uniqueness violation (MongoDB duplicate-key error, `err.code === 11000`),
or any other failure with its message. -/
inductive UserSaveOutcome where
  | ok : UserSaveOutcome
  | dupKey : String → UserSaveOutcome
  | other : String → UserSaveOutcome
deriving DecidableEq, Repr

/-- Response of `POST /auth/register`. -/
inductive RegisterResp where
  | created : RegisterResp
  | validationErrors : List FieldError → RegisterResp
  | systemError : RegisterResp
  | badRequest : String → RegisterResp
deriving DecidableEq, Repr

/-- HTTP status of a register response; `created` carries
`\x7b message: 'Utilisateur cree' \x7d`, `systemError` the constant body
`\x7b error: 'Erreur systeme' \x7d`. -/
def RegisterResp.status : RegisterResp → Nat
  | .created => 201
  | .validationErrors _ => 400
  | .systemError => 500
  | .badRequest _ => 400

/-- Embedding of the register handler: when `validationResult` is
nonempty answer 400 with the ordered field errors; otherwise save the new
user and dispatch on the failure: duplicate key (code 11000) becomes the
constant generic 500, any other save error becomes 400 with the
underlying message. -/
def registerHandler (name pw : String) (outcome : UserSaveOutcome) :
    RegisterResp :=
  let errs := validateRegister name pw
  if errs.isEmpty then
    match outcome with
    | .ok => .created
    | .dupKey _ => .systemError
    | .other m => .badRequest m
  else .validationErrors errs

/-! ## Authenticated potion mutations -/

/-- The request body of `POST /potions`: the potion payload without the
store-assigned identifier. -/
structure PotionInput where
  name : String
  price : ℚ
  score : ℚ
  ingredients : List String
  ratings : Ratings
  tryDate : String
  categories : List String
  vendor_id : String
deriving DecidableEq, Repr

/-- The saved document: the payload persisted verbatim together with the
identifier assigned by the store. -/
def withId (b : PotionInput) (id : String) : Potion :=
  ⟨id, b.name, b.price, b.score, b.ingredients, b.ratings, b.tryDate,
   b.categories, b.vendor_id⟩

/-- Outcome of `newPotion.save()`: success with the assigned identifier,
a store-level shape-validation failure, or an infrastructure failure,
each carrying the error message. -/
inductive PotionSaveOutcome where
  | assigned : String → PotionSaveOutcome
  | validationFail : String → PotionSaveOutcome
  | infraFail : String → PotionSaveOutcome
deriving DecidableEq, Repr

/-- Response of `POST /potions`. -/
inductive CreateResp where
  | unauthorized : CreateResp
  | created : Potion → CreateResp
  | badRequest : String → CreateResp
deriving DecidableEq, Repr

/-- HTTP status of a create response. -/
def CreateResp.status : CreateResp → Nat
  | .unauthorized => 401
  | .created _ => 201
  | .badRequest _ => 400

/-- Result of a mutating handler: the response, the catalog afterwards,
and whether the store was reached at all. -/
structure MutResult (ρ : Type) where
  resp : ρ
  store : List Potion
  storeReached : Bool
deriving DecidableEq, Repr

/-- Embedding of the `POST /potions` handler behind the auth guard: an
unauthenticated request is answered 401 without touching the store;
otherwise the document is saved and the single catch maps every thrown
save error — shape validation and infrastructure alike — to 400 with
`err.message`; success answers 201 with the saved document. -/
def createHandler (secret : String) (now : Nat)
    (cookie : Option SessionToken) (docs : List Potion) (body : PotionInput)
    (outcome : PotionSaveOutcome) : MutResult CreateResp :=
  match authenticate secret now cookie with
  | none => ⟨.unauthorized, docs, false⟩
  | some _ =>
    match outcome with
    | .assigned id => ⟨.created (withId body id), docs ++ [withId body id], true⟩
    | .validationFail m => ⟨.badRequest m, docs, true⟩
    | .infraFail m => ⟨.badRequest m, docs, true⟩

/-- A partial update body: each potion field optionally present;
`findByIdAndUpdate` `$set`s exactly the submitted fields. -/
structure PotionPatch where
  name : Option String
  price : Option ℚ
  score : Option ℚ
  ingredients : Option (List String)
  ratings : Option Ratings
  tryDate : Option String
  categories : Option (List String)
  vendor_id : Option String
deriving DecidableEq, Repr

/-- The empty patch (no field submitted). -/
def emptyPatch : PotionPatch :=
  ⟨none, none, none, none, none, none, none, none⟩

/-- Merging a partial body onto an existing document, per
`findByIdAndUpdate` with a plain update object. -/
def applyPatch (p : Potion) (b : PotionPatch) : Potion :=
  ⟨p.id, b.name.getD p.name, b.price.getD p.price, b.score.getD p.score,
   b.ingredients.getD p.ingredients, b.ratings.getD p.ratings,
   b.tryDate.getD p.tryDate, b.categories.getD p.categories,
   b.vendor_id.getD p.vendor_id⟩

/-- Response of `POST /potions/:id` (partial update). -/
inductive UpdateResp where
  | unauthorized : UpdateResp
  | updated : Potion → UpdateResp
  | notFound : UpdateResp
  | serverError : String → UpdateResp
deriving DecidableEq, Repr

/-- HTTP status of an update response; `notFound` carries
`\x7b error: 'Potion non trouvee' \x7d`. -/
def UpdateResp.status : UpdateResp → Nat
  | .unauthorized => 401
  | .updated _ => 200
  | .notFound => 404
  | .serverError _ => 500

/-- Embedding of the `POST /potions/:id` handler behind the auth guard:
401 without a verified session cookie, before any store access;
otherwise `findByIdAndUpdate` — a malformed id raises a CastError before
the query is sent and the catch answers 500; a well-formed id that does
not resolve answers 404; otherwise the merged document is stored and
returned (the `new: true` option returns the updated document). -/
def updateHandler (secret : String) (now : Nat)
    (cookie : Option SessionToken) (docs : List Potion) (id : String)
    (body : PotionPatch) : MutResult UpdateResp :=
  match authenticate secret now cookie with
  | none => ⟨.unauthorized, docs, false⟩
  | some _ =>
    if isValidObjectId id then
      match docs.find? (fun p => p.id = id) with
      | none => ⟨.notFound, docs, true⟩
      | some p =>
        let p2 := applyPatch p body
        ⟨.updated p2, docs.map (fun q => if q.id = id then p2 else q), true⟩
    else ⟨.serverError ("CastError"), docs, false⟩

/-- Response of `DELETE /potions/:id`. -/
inductive DeleteResp where
  | unauthorized : DeleteResp
  | deleted : DeleteResp
  | notFound : DeleteResp
  | serverError : String → DeleteResp
deriving DecidableEq, Repr

/-- HTTP status of a delete response; `deleted` carries
`\x7b message: 'Potion supprimee' \x7d`. -/
def DeleteResp.status : DeleteResp → Nat
  | .unauthorized => 401
  | .deleted => 200
  | .notFound => 404
  | .serverError _ => 500

/-- Embedding of the `DELETE /potions/:id` handler behind the auth
guard: 401 without a verified session cookie, before any store access;
otherwise `findByIdAndDelete` — a malformed id raises a CastError and
the catch answers 500; absent id answers 404; otherwise the document is
removed and a confirmation returned. -/
def deleteHandler (secret : String) (now : Nat)
    (cookie : Option SessionToken) (docs : List Potion) (id : String) :
    MutResult DeleteResp :=
  match authenticate secret now cookie with
  | none => ⟨.unauthorized, docs, false⟩
  | some _ =>
    if isValidObjectId id then
      match docs.find? (fun p => p.id = id) with
      | none => ⟨.notFound, docs, true⟩
      | some _ => ⟨.deleted, docs.filter (fun p => !(p.id = id : Bool)), true⟩
    else ⟨.serverError ("CastError"), docs, false⟩

/-! ## Sample data for concrete instantiations -/

/-- A sample potion with a well-formed (12-byte) identifier. -/
def samplePotion : Potion :=
  ⟨"aaaaaaaaaaaa", "Elixir", 10, 5, ["herbe"], ⟨4, 2⟩, "2025-04-02",
   ["soin"], "v1"⟩

/-- A sample potion whose flavor rating is exactly 0. -/
def zeroFlavorPotion : Potion :=
  ⟨"cccccccccccc", "Brume", 7, 3, [], ⟨4, 0⟩, "2025-04-02", ["rare"], "v2"⟩

/-- A sample create-request body. -/
def sampleInput : PotionInput :=
  ⟨"Elixir", 10, 5, ["herbe"], ⟨4, 2⟩, "2025-04-02", ["soin"], "v1"⟩

/-- A session token correctly signed under the secret `dev_secret`,
expiring at instant 1000. -/
def sampleToken : SessionToken :=
  signTok ("dev_secret") ("u1") ("alice") 1000

/-- A one-user credential store. -/
def sampleUsers : List User :=
  [⟨"u1", "alice", derive ("wingardium")⟩]

/-! ## C1: GET /potions/:id -/

/-- C1 counterexample: the claim asserts that a malformed identifier
yields NotFound (404) and never a system error (500).  On the identifier
`zz` (neither 12 bytes nor 24 hex characters) `findById` raises a
CastError, the catch answers 500, and the response is not 404. -/
theorem getById_malformed_counterexample :
    getByIdHandler [] ("zz") ≠ GetByIdResp.notFound ∧
    (getByIdHandler ([] : List Potion) ("zz")).status = 500 := by
  decide

/-- C1 (amended): for a well-formed identifier, `GET /potions/:id`
returns the single potion whose identifier equals `id` (a member of the
catalog) or the NotFound signal when no potion has that identifier; a
malformed identifier is answered with a system error (500), not with
NotFound. -/
theorem getById_spec (docs : List Potion) (id : String) :
    (isValidObjectId id = true →
      (getByIdHandler docs id = GetByIdResp.notFound ∧ ∀ p ∈ docs, p.id ≠ id) ∨
      (∃ p, getByIdHandler docs id = GetByIdResp.ok p ∧ p ∈ docs ∧ p.id = id)) ∧
    (isValidObjectId id = false →
      getByIdHandler docs id = GetByIdResp.serverError ("CastError") ∧
      (getByIdHandler docs id).status = 500) := by
  constructor
  · intro hv
    cases h : docs.find? (fun p => p.id = id) with
    | none =>
      left
      refine ⟨by simp [getByIdHandler, findByIdStore, hv, h], ?_⟩
      intro p hp
      have := List.find?_eq_none.mp h p hp
      simpa using this
    | some p =>
      right
      refine ⟨p, by simp [getByIdHandler, findByIdStore, hv, h],
        List.mem_of_find?_eq_some h, ?_⟩
      have := List.find?_some h
      simpa using this
  · intro hv
    refine ⟨by simp [getByIdHandler, findByIdStore, hv], ?_⟩
    simp [getByIdHandler, findByIdStore, hv, GetByIdResp.status]

/-- C1 witness: concrete instantiation of `getById_spec` on a one-potion
catalog and that potion's own identifier. -/
theorem getById_spec_witness :
    (getByIdHandler [samplePotion] ("aaaaaaaaaaaa") = GetByIdResp.notFound ∧
       ∀ p ∈ [samplePotion], p.id ≠ "aaaaaaaaaaaa") ∨
    (∃ p, getByIdHandler [samplePotion] ("aaaaaaaaaaaa") = GetByIdResp.ok p ∧
       p ∈ [samplePotion] ∧ p.id = "aaaaaaaaaaaa") :=
  (getById_spec [samplePotion] ("aaaaaaaaaaaa")).1 (by decide)

/-! ## C2: login does not distinguish its two failure causes -/

/-- C2: a login with an existing name and a wrong password and a login
with a nonexistent name produce literally the same response value: the
single generic invalid-credentials rejection, with status 401 and body
`Identifiants invalides` — nothing distinguishes the two causes. -/
theorem login_no_user_enumeration (secret : String) (now : Nat)
    (users : List User) (n1 p1 n2 p2 : String) (u : User)
    (hu : findUser users n1 = some u) (hp : comparePassword u p1 = false)
    (hn : findUser users n2 = none) :
    loginHandler secret now users n1 p1 = loginHandler secret now users n2 p2 ∧
    loginHandler secret now users n2 p2 = LoginResp.invalidCreds ∧
    (loginHandler secret now users n1 p1).status = 401 ∧
    (loginHandler secret now users n1 p1).body = "Identifiants invalides" := by
  have h1 : loginHandler secret now users n1 p1 = LoginResp.invalidCreds := by
    simp [loginHandler, hu, hp]
  have h2 : loginHandler secret now users n2 p2 = LoginResp.invalidCreds := by
    simp [loginHandler, hn]
  exact ⟨h1.trans h2.symm, h2, by simp [h1, LoginResp.status],
    by simp [h1, LoginResp.body]⟩

/-- C2 witness: concrete instantiation — `alice` exists and supplies a
wrong password, `bob` does not exist; the responses coincide. -/
theorem login_no_user_enumeration_witness :
    loginHandler ("dev_secret") 0 sampleUsers ("alice") ("wrong")
      = loginHandler ("dev_secret") 0 sampleUsers ("bob") ("wingardium") :=
  (login_no_user_enumeration ("dev_secret") 0 sampleUsers ("alice") ("wrong")
    ("bob") ("wingardium") ⟨"u1", "alice", derive ("wingardium")⟩
    (by decide) (by decide) (by decide)).1

/-! ## C3: search parameter validation -/

/-- C3 failing input: the claim (and the swagger enum plus the
`allowedMetrics` whitelist) requires every metric outside avg, sum and
count to be rejected with 400 regardless of the other parameters, before
any query runs.  With `metric=constructor` (and valid `groupBy` and
`field`), JavaScript property lookup resolves `constructor` through
`Object.prototype` to a truthy value, validation is bypassed, the
aggregation executes and fails at the store, and the response is 500 —
while an ordinary invalid metric such as `max` is correctly rejected
with 400. -/
theorem search_prototype_bypass :
    searchHandler [] (some ("vendor_id")) (some ("constructor")) (some ("score"))
      ≠ SearchResp.badRequest ∧
    (searchHandler [] (some ("vendor_id")) (some ("constructor"))
      (some ("score"))).status = 500 ∧
    searchHandler [] (some ("vendor_id")) (some ("max")) (some ("score"))
      = SearchResp.badRequest := by
  decide

/-! ## C5: strength-flavor ratio -/

/-- C5: every potion of the catalog contributes one row whose ratio is
`ratings.strength / ratings.flavor` when the flavor is nonzero and is an
explicit null (`none`) when the flavor is exactly 0 — the division is
never evaluated in that case, so no division error or infinity can
arise. -/
theorem strengthFlavorRatio_spec (docs : List Potion) (p : Potion)
    (hp : p ∈ docs) :
    ((⟨p.id, p.name,
        if p.ratings.flavor = 0 then none
        else some (p.ratings.strength / p.ratings.flavor)⟩ : RatioEntry)
      ∈ strengthFlavorRatioAgg docs) ∧
    (p.ratings.flavor = 0 →
      (⟨p.id, p.name, none⟩ : RatioEntry) ∈ strengthFlavorRatioAgg docs) ∧
    (p.ratings.flavor ≠ 0 →
      (⟨p.id, p.name, some (p.ratings.strength / p.ratings.flavor)⟩ : RatioEntry)
        ∈ strengthFlavorRatioAgg docs) := by
  unfold strengthFlavorRatioAgg
  refine ⟨List.mem_map.mpr ⟨p, hp, rfl⟩, ?_, ?_⟩
  · intro h
    exact List.mem_map.mpr ⟨p, hp, by simp [h]⟩
  · intro h
    exact List.mem_map.mpr ⟨p, hp, by simp [h]⟩

/-- C5 witness: concrete instantiation on a potion whose flavor rating
is exactly 0: its row carries the explicit null ratio. -/
theorem strengthFlavorRatio_spec_witness :
    (⟨zeroFlavorPotion.id, zeroFlavorPotion.name, none⟩ : RatioEntry)
      ∈ strengthFlavorRatioAgg [zeroFlavorPotion] :=
  (strengthFlavorRatio_spec [zeroFlavorPotion] zeroFlavorPotion
    (by decide)).2.1 (by decide)

/-! ## C4: search with metric count -/

/-- C4: with `metric=count` and a truthy `groupBy`, the search response
is independent of any supplied `field` value, and is the count
aggregation: its keys are pairwise distinct, a key occurs exactly when it
is the `groupBy`-value of some catalog document, and each key's count is
the number of documents grouped under it. -/
theorem search_count_spec (docs : List Potion) (gb : String)
    (f1 f2 : Option String) (hgb : gb ≠ "") :
    searchHandler docs (some gb) (some ("count")) f1
      = searchHandler docs (some gb) (some ("count")) f2 ∧
    searchHandler docs (some gb) (some ("count")) f1
      = SearchResp.countResult (groupCount docs gb) ∧
    ((groupCount docs gb).map Prod.fst).Nodup ∧
    (∀ v : MongoValue,
      (∃ n, (v, n) ∈ groupCount docs gb) ↔ ∃ d ∈ docs, getField d gb = v) ∧
    (∀ v n, (v, n) ∈ groupCount docs gb →
      n = docs.countP fun d => decide (getField d gb = v)) := by
  have hgb' : gb.isEmpty = false := by
    cases h : gb.isEmpty
    · rfl
    · exact absurd ((String.isEmpty_iff gb).mp h) hgb
  have hresp : ∀ f, searchHandler docs (some gb) (some ("count")) f
      = SearchResp.countResult (groupCount docs gb) := by
    intro f
    simp [searchHandler, allowedMetricsLookup, JsLookup.truthy, truthyStr, hgb']
  have hkeys : (groupCount docs gb).map Prod.fst = groupKeys docs gb := by
    simp only [groupCount, List.map_map]
    exact List.map_id _
  refine ⟨(hresp f1).trans (hresp f2).symm, hresp f1, ?_, ?_, ?_⟩
  · rw [hkeys]
    exact List.nodup_dedup _
  · intro v
    constructor
    · rintro ⟨n, hmem⟩
      rcases List.mem_map.mp hmem with ⟨k, hk, hkv⟩
      simp only [Prod.mk.injEq] at hkv
      obtain ⟨rfl, -⟩ := hkv
      have hk' : k ∈ docs.map fun d => getField d gb :=
        List.mem_dedup.mp hk
      rcases List.mem_map.mp hk' with ⟨d, hd, hdv⟩
      exact ⟨d, hd, hdv⟩
    · rintro ⟨d, hd, rfl⟩
      refine ⟨docs.countP fun x => decide (getField x gb = getField d gb), ?_⟩
      refine List.mem_map.mpr ⟨getField d gb, ?_, rfl⟩
      exact List.mem_dedup.mpr (List.mem_map.mpr ⟨d, hd, rfl⟩)
  · intro v n hmem
    rcases List.mem_map.mp hmem with ⟨k, hk, hkv⟩
    simp only [Prod.mk.injEq] at hkv
    obtain ⟨rfl, rfl⟩ := hkv
    rfl

/-- C4 witness: concrete instantiation on a two-potion catalog grouped
by vendor, with two different `field` values. -/
theorem search_count_spec_witness :
    searchHandler [samplePotion, zeroFlavorPotion] (some ("vendor_id"))
        (some ("count")) none
      = searchHandler [samplePotion, zeroFlavorPotion] (some ("vendor_id"))
        (some ("count")) (some ("score")) :=
  (search_count_spec [samplePotion, zeroFlavorPotion] ("vendor_id") none
    (some ("score")) (by decide)).1

/-! ## C6: price-range filtering -/

/-- C6: `GET /potions/price-range` returns exactly the potions whose
price satisfies every bound that parsed to a number; a bound that is
absent or fails `parseFloat` contributes no constraint and raises no
error; with only a (finite) `min` parsed the result is exactly the
potions with price ≥ min; with neither bound parsed the result is the
whole catalog. -/
theorem priceRange_spec (docs : List Potion) (minS maxS : Option String) :
    (∀ p, p ∈ priceRangeHandler docs minS maxS ↔
      p ∈ docs ∧
      (∀ m, minS.bind parseFloatJs = some m →
        JsNum.le m (JsNum.fin p.price) = true) ∧
      (∀ m, maxS.bind parseFloatJs = some m →
        JsNum.le (JsNum.fin p.price) m = true)) ∧
    (∀ q : ℚ, minS.bind parseFloatJs = some (JsNum.fin q) →
      maxS.bind parseFloatJs = none →
      priceRangeHandler docs minS maxS
        = docs.filter fun p => decide (q ≤ p.price)) ∧
    (minS.bind parseFloatJs = none → maxS.bind parseFloatJs = none →
      priceRangeHandler docs minS maxS = docs) := by
  refine ⟨?_, ?_, ?_⟩
  · intro p
    rw [priceRangeHandler, List.mem_filter]
    cases hmi : minS.bind parseFloatJs <;> cases hma : maxS.bind parseFloatJs <;>
      simp_all
  · intro q hmi hma
    rw [priceRangeHandler, hmi, hma]
    refine List.filter_congr ?_
    intro p _
    simp [JsNum.le]
  · intro hmi hma
    rw [priceRangeHandler, hmi, hma]
    simp

/-- C6 witness: concrete instantiation with only `min=5` supplied — the
result is the catalog filtered to prices at least 5. -/
theorem priceRange_spec_witness :
    priceRangeHandler [samplePotion, zeroFlavorPotion] (some ("5")) none
      = List.filter (fun p => decide ((5 : ℚ) ≤ p.price))
          [samplePotion, zeroFlavorPotion] :=
  (priceRange_spec [samplePotion, zeroFlavorPotion] (some ("5")) none).2.1
    5
    (by
      have h : (some ("5")).bind parseFloatJs
          = some (JsNum.fin
              (((digitsToNat ['5'] : ℚ) + (digitsToNat [] : ℚ) / qpow10 0)
                * qpow10 0)) := rfl
      rw [h]
      have h5 : digitsToNat ['5'] = 5 := by decide
      have h0 : digitsToNat [] = 0 := by decide
      rw [h5, h0]
      norm_num [qpow10])
    rfl

/-! ## C7: update and delete -/

/-- C7 counterexample: the claim asserts that update and delete return
404 whenever no potion with the given id exists.  With a valid session
and the identifier `zz` (which no potion can bear, the catalog being
empty), `findByIdAndUpdate`/`findByIdAndDelete` raise a CastError and
both handlers answer 500, not 404. -/
theorem update_delete_malformed_id_counterexample :
    (updateHandler ("dev_secret") 0 (some sampleToken) [] ("zz")
      emptyPatch).resp ≠ UpdateResp.notFound ∧
    ((updateHandler ("dev_secret") 0 (some sampleToken) [] ("zz")
      emptyPatch).resp).status = 500 ∧
    (deleteHandler ("dev_secret") 0 (some sampleToken) [] ("zz")).resp
      ≠ DeleteResp.notFound ∧
    ((deleteHandler ("dev_secret") 0 (some sampleToken) [] ("zz")).resp).status
      = 500 := by
  decide

/-- C7 (amended): without a verified session cookie, update and delete
answer 401 and never reach the store (the catalog is untouched and no
query executes); with a verified session and a well-formed identifier
that resolves to no potion, both answer 404; a malformed identifier is
answered 500. -/
theorem update_delete_spec (secret : String) (now : Nat)
    (cookie : Option SessionToken) (docs : List Potion) (id : String)
    (body : PotionPatch) :
    (authenticate secret now cookie = none →
      updateHandler secret now cookie docs id body
        = ⟨UpdateResp.unauthorized, docs, false⟩ ∧
      deleteHandler secret now cookie docs id
        = ⟨DeleteResp.unauthorized, docs, false⟩ ∧
      UpdateResp.unauthorized.status = 401 ∧
      DeleteResp.unauthorized.status = 401) ∧
    (authenticate secret now cookie ≠ none → isValidObjectId id = true →
      (∀ p ∈ docs, p.id ≠ id) →
      (updateHandler secret now cookie docs id body).resp
        = UpdateResp.notFound ∧
      (deleteHandler secret now cookie docs id).resp = DeleteResp.notFound ∧
      UpdateResp.notFound.status = 404 ∧ DeleteResp.notFound.status = 404) ∧
    (authenticate secret now cookie ≠ none → isValidObjectId id = false →
      ((updateHandler secret now cookie docs id body).resp).status = 500 ∧
      ((deleteHandler secret now cookie docs id).resp).status = 500) := by
  refine ⟨?_, ?_, ?_⟩
  · intro h
    refine ⟨?_, ?_, rfl, rfl⟩ <;> simp [updateHandler, deleteHandler, h]
  · intro h hv habs
    obtain ⟨a, ha⟩ := Option.ne_none_iff_exists'.mp h
    have hf : docs.find? (fun p => p.id = id) = none := by
      refine List.find?_eq_none.mpr ?_
      intro p hp
      simpa using habs p hp
    refine ⟨?_, ?_, rfl, rfl⟩ <;>
      simp [updateHandler, deleteHandler, ha, hv, hf]
  · intro h hv
    obtain ⟨a, ha⟩ := Option.ne_none_iff_exists'.mp h
    constructor <;>
      simp [updateHandler, deleteHandler, ha, hv, UpdateResp.status,
        DeleteResp.status]

/-- C7 witness: concrete instantiations — a missing cookie yields 401
with the store untouched; a valid cookie and an absent well-formed id
yield 404 on both operations. -/
theorem update_delete_spec_witness :
    (updateHandler ("dev_secret") 0 none [samplePotion] ("bbbbbbbbbbbb")
        emptyPatch = ⟨UpdateResp.unauthorized, [samplePotion], false⟩ ∧
      deleteHandler ("dev_secret") 0 none [samplePotion] ("bbbbbbbbbbbb")
        = ⟨DeleteResp.unauthorized, [samplePotion], false⟩ ∧
      UpdateResp.unauthorized.status = 401 ∧
      DeleteResp.unauthorized.status = 401) ∧
    ((updateHandler ("dev_secret") 0 (some sampleToken) [samplePotion]
        ("bbbbbbbbbbbb") emptyPatch).resp = UpdateResp.notFound ∧
      (deleteHandler ("dev_secret") 0 (some sampleToken) [samplePotion]
        ("bbbbbbbbbbbb")).resp = DeleteResp.notFound ∧
      UpdateResp.notFound.status = 404 ∧ DeleteResp.notFound.status = 404) :=
  ⟨(update_delete_spec ("dev_secret") 0 none [samplePotion] ("bbbbbbbbbbbb")
      emptyPatch).1 (by decide),
   (update_delete_spec ("dev_secret") 0 (some sampleToken) [samplePotion]
      ("bbbbbbbbbbbb") emptyPatch).2.1 (by decide) (by decide) (by decide)⟩

/-! ## C8: register input validation -/

/-- C8 counterexample: the claim asserts rejection with a field error on
`name` whenever the name is not 3-30 characters after trimming; the name
consisting of two `<` characters has length 2 after trimming, yet
HTML-escaping (which runs before the length validator) inflates it to
`&lt;&lt;` of length 8, validation passes with no error at all, and the
registration proceeds. -/
theorem register_escape_inflation_counterexample :
    (jsTrim ("<<")).length = 2 ∧
    validateRegister ("<<") ("secret1") = [] ∧
    registerHandler ("<<") ("secret1") UserSaveOutcome.ok
      = RegisterResp.created := by
  decide

/-- C8 (amended): register inputs are first trimmed and HTML-escaped and
the length validators run on the result: the response is the ordered
sequence of field-level errors (all name errors, then all password
errors, each carrying its field); registration is rejected exactly when
the trimmed-and-escaped name is shorter than 3 or longer than 30
characters or the trimmed-and-escaped password is shorter than 6; in
particular a 2-character name (free of escapable characters) yields a
field error on `name` and a 5-character password (free of escapable
characters) yields a field error on `password`. -/
theorem register_validation_spec (name pw : String)
    (outcome : UserSaveOutcome) :
    validateRegister name pw = nameChecks name ++ passwordChecks pw ∧
    (∀ e ∈ nameChecks name, e.param = "name") ∧
    (∀ e ∈ passwordChecks pw, e.param = "password") ∧
    (validateRegister name pw ≠ [] ↔
      (sanitizeField name).length < 3 ∨ 30 < (sanitizeField name).length ∨
        (sanitizeField pw).length < 6) ∧
    ((sanitizeField name).length < 3 ∨ 30 < (sanitizeField name).length →
      ∃ e ∈ validateRegister name pw, e.param = "name") ∧
    ((sanitizeField pw).length < 6 →
      ∃ e ∈ validateRegister name pw, e.param = "password") ∧
    (validateRegister name pw ≠ [] →
      registerHandler name pw outcome
        = RegisterResp.validationErrors (validateRegister name pw) ∧
      (registerHandler name pw outcome).status = 400) := by
  have hA : ∀ e ∈ nameChecks name, e.param = "name" := by
    intro e he
    unfold nameChecks at he
    rcases List.mem_append.mp he with h | h <;> split at h <;> simp_all
  have hP : ∀ e ∈ passwordChecks pw, e.param = "password" := by
    intro e he
    unfold passwordChecks at he
    rcases List.mem_append.mp he with h | h <;> split at h <;> simp_all
  have hB : nameChecks name = [] ↔
      3 ≤ (sanitizeField name).length ∧ (sanitizeField name).length ≤ 30 := by
    unfold nameChecks
    split <;> split <;> simp_all
  have hC : passwordChecks pw = [] ↔ 6 ≤ (sanitizeField pw).length := by
    unfold passwordChecks
    split <;> split <;> simp_all
  have hsplit : validateRegister name pw = [] ↔
      nameChecks name = [] ∧ passwordChecks pw = [] := by
    unfold validateRegister
    exact List.append_eq_nil
  have h4 : validateRegister name pw ≠ [] ↔
      (sanitizeField name).length < 3 ∨ 30 < (sanitizeField name).length ∨
        (sanitizeField pw).length < 6 := by
    rw [Ne, hsplit, hB, hC]
    omega
  refine ⟨rfl, hA, hP, h4, ?_, ?_, ?_⟩
  · intro h
    have hne : nameChecks name ≠ [] := by
      rw [Ne, hB]
      omega
    obtain ⟨e, he⟩ := List.exists_mem_of_ne_nil _ hne
    exact ⟨e, List.mem_append_left _ he, hA e he⟩
  · intro h
    have hne : passwordChecks pw ≠ [] := by
      rw [Ne, hC]
      omega
    obtain ⟨e, he⟩ := List.exists_mem_of_ne_nil _ hne
    exact ⟨e, List.mem_append_right _ he, hP e he⟩
  · intro hne
    have hEmpty : (validateRegister name pw).isEmpty = false := by
      cases h : (validateRegister name pw).isEmpty
      · rfl
      · exact absurd (List.isEmpty_iff.mp h) hne
    constructor <;> simp [registerHandler, hEmpty, RegisterResp.status]

/-- C8 witness: a 2-character escapable-free name yields a name field
error, a 5-character escapable-free password yields a password field
error. -/
theorem register_validation_spec_witness :
    (∃ e ∈ validateRegister ("ab") ("abcdef"), e.param = "name") ∧
    (∃ e ∈ validateRegister ("abc") ("abcde"), e.param = "password") :=
  ⟨(register_validation_spec ("ab") ("abcdef")
      UserSaveOutcome.ok).2.2.2.2.1 (by decide),
   (register_validation_spec ("abc") ("abcde")
      UserSaveOutcome.ok).2.2.2.2.2.1 (by decide)⟩

/-! ## C9: register insertion failures -/

/-- C9: once validation passes, a duplicate-key failure at insertion is
answered with the constant generic system error (status 500) — the
response is literally the same value whatever the name, password or
duplicate-key message, so it reveals nothing about the name being taken —
while any other insertion failure is answered 400 carrying the
underlying message. -/
theorem register_save_error_spec (n1 p1 n2 p2 m1 m2 m : String)
    (h1 : validateRegister n1 p1 = []) (h2 : validateRegister n2 p2 = []) :
    registerHandler n1 p1 (UserSaveOutcome.dupKey m1)
      = registerHandler n2 p2 (UserSaveOutcome.dupKey m2) ∧
    registerHandler n1 p1 (UserSaveOutcome.dupKey m1)
      = RegisterResp.systemError ∧
    (registerHandler n1 p1 (UserSaveOutcome.dupKey m1)).status = 500 ∧
    registerHandler n1 p1 (UserSaveOutcome.other m)
      = RegisterResp.badRequest m ∧
    (registerHandler n1 p1 (UserSaveOutcome.other m)).status = 400 := by
  have e1 : (validateRegister n1 p1).isEmpty = true := by
    rw [List.isEmpty_iff]
    exact h1
  have e2 : (validateRegister n2 p2).isEmpty = true := by
    rw [List.isEmpty_iff]
    exact h2
  refine ⟨?_, ?_, ?_, ?_, ?_⟩ <;>
    simp [registerHandler, e1, e2, RegisterResp.status]

/-- C9 witness: concrete instantiation with two different valid
registrations failing on a duplicate key — identical generic responses —
and one other insertion failure carrying its message. -/
theorem register_save_error_spec_witness :
    registerHandler ("alice") ("secret1") (UserSaveOutcome.dupKey ("E11000"))
      = registerHandler ("bob") ("secret2")
          (UserSaveOutcome.dupKey ("E11000 dup key name")) :=
  (register_save_error_spec ("alice") ("secret1") ("bob") ("secret2")
    ("E11000") ("E11000 dup key name") ("x")
    (by decide) (by decide)).1

/-! ## C10: create -/

/-- C10 counterexample: the claim asserts that a store or infrastructure
failure during the save is reported as a system error (500).  With a
valid session, an infrastructure failure during `save` is caught by the
handler's single catch and answered 400 with the error message — no 500
path exists in the create handler. -/
theorem create_infra_error_counterexample :
    ((createHandler ("dev_secret") 0 (some sampleToken) [] sampleInput
      (PotionSaveOutcome.infraFail ("connection lost"))).resp).status
      = 400 ∧
    (createHandler ("dev_secret") 0 (some sampleToken) [] sampleInput
      (PotionSaveOutcome.infraFail ("connection lost"))).resp
      = CreateResp.badRequest ("connection lost") := by
  decide

/-- C10 (amended): an unauthenticated create is answered 401 without
reaching the store; an authenticated create that succeeds is answered
201 with the saved record carrying the store-assigned identifier (and the
record is appended to the catalog); an authenticated create whose save
fails — whether by store-level shape validation or by an infrastructure
failure — is answered 400 with the underlying error message. -/
theorem create_spec (secret : String) (now : Nat)
    (cookie : Option SessionToken) (docs : List Potion) (body : PotionInput)
    (outcome : PotionSaveOutcome) :
    (authenticate secret now cookie = none →
      createHandler secret now cookie docs body outcome
        = ⟨CreateResp.unauthorized, docs, false⟩ ∧
      CreateResp.unauthorized.status = 401) ∧
    (authenticate secret now cookie ≠ none →
      (∀ id, outcome = PotionSaveOutcome.assigned id →
        createHandler secret now cookie docs body outcome
          = ⟨CreateResp.created (withId body id),
             docs ++ [withId body id], true⟩ ∧
        (withId body id).id = id ∧
        (CreateResp.created (withId body id)).status = 201) ∧
      (∀ m, outcome = PotionSaveOutcome.validationFail m →
        (createHandler secret now cookie docs body outcome).resp
          = CreateResp.badRequest m ∧
        (CreateResp.badRequest m).status = 400) ∧
      (∀ m, outcome = PotionSaveOutcome.infraFail m →
        (createHandler secret now cookie docs body outcome).resp
          = CreateResp.badRequest m ∧
        (CreateResp.badRequest m).status = 400)) := by
  constructor
  · intro h
    exact ⟨by simp [createHandler, h], rfl⟩
  · intro h
    obtain ⟨a, ha⟩ := Option.ne_none_iff_exists'.mp h
    refine ⟨?_, ?_, ?_⟩
    · rintro id rfl
      exact ⟨by simp [createHandler, ha], rfl, rfl⟩
    · rintro m rfl
      exact ⟨by simp [createHandler, ha], rfl⟩
    · rintro m rfl
      exact ⟨by simp [createHandler, ha], rfl⟩

/-- C10 witness: concrete instantiation — an authenticated create whose
save assigns a fresh identifier answers 201 with the identified record
appended. -/
theorem create_spec_witness :
    createHandler ("dev_secret") 0 (some sampleToken) [] sampleInput
      (PotionSaveOutcome.assigned ("dddddddddddd"))
      = ⟨CreateResp.created (withId sampleInput ("dddddddddddd")),
         [] ++ [withId sampleInput ("dddddddddddd")], true⟩ :=
  (((create_spec ("dev_secret") 0 (some sampleToken) [] sampleInput
      (PotionSaveOutcome.assigned ("dddddddddddd"))).2 (by decide)).1
    ("dddddddddddd") rfl).1

end PotionApi
